import Mathlib

/-!
Verification of the multical repository's reprojection-statistics and
static-motion-model code against its specification.

Arrays of floats are modelled as lists of rationals (`List ℚ`); the IEEE NaN
used by numpy as a "no data" marker is modelled by `Option ℚ` with `none`
playing the role of NaN.  Boolean numpy arrays are `List Bool`.  All reductions
are modelled for a single flattened slice (the `axis=None` case); a reduction
along an axis applies the same computation to each slice independently.
-/

namespace Multical

/-! ### numpy primitives (modelled) -/

/-- Sum of a float array, modelling `np.ndarray.sum` on a float array. -/
def npSum (xs : List ℚ) : ℚ := xs.sum

/-- Sum of a boolean array, modelling `np.ndarray.sum` on a bool array:
numpy counts the `True` entries. -/
def npSumBool (bs : List Bool) : ℕ := (bs.map (fun b => if b then 1 else 0)).sum

/-- Elementwise square, modelling `np.square`. -/
def npSquare (xs : List ℚ) : List ℚ := xs.map (fun x => x * x)

/-- Elementwise `valid & ~inlier`, modelling the numpy expression on bool
arrays (same shape in the source; `zipWith` truncates to the common length). -/
def npAndNot (v i : List Bool) : List Bool := List.zipWith (fun a b => a && !b) v i

/-- Insertion of an element into an ascending list, helper for `sortAsc`. -/
def insertAsc (x : ℚ) : List ℚ → List ℚ
  | [] => [x]
  | y :: ys => if x ≤ y then x :: y :: ys else y :: insertAsc x ys

/-- Ascending sort, modelling the sort performed inside `np.nanquantile`
(the sorting algorithm itself is not semantically relevant). -/
def sortAsc : List ℚ → List ℚ
  | [] => []
  | x :: xs => insertAsc x (sortAsc xs)

/-- The quantile of a non-empty ascending list of values with numpy's default
linear interpolation: the value at fractional position `q * (m - 1)`. -/
def quantileSorted (vs : List ℚ) (q : ℚ) : ℚ :=
  let m := vs.length
  let p : ℚ := q * ((m : ℚ) - 1)
  let i : ℕ := ⌊p⌋₊
  let g : ℚ := p - (i : ℚ)
  let lo := vs.getD i 0
  let hi := vs.getD (i + 1) lo
  lo + g * (hi - lo)

/-- `np.nanquantile` at a single quantile `q`: NaN entries (`none`) are
dropped; if every entry is NaN the result is NaN (`none`), otherwise the
linearly interpolated quantile of the remaining values. -/
def nanquantile1 (xs : List (Option ℚ)) (q : ℚ) : Option ℚ :=
  let vals := sortAsc (xs.filterMap id)
  if vals.isEmpty then none else some (quantileSorted vals q)

/-- `np.nanquantile` at a list of quantiles. -/
def nanquantile (xs : List (Option ℚ)) (qs : List ℚ) : List (Option ℚ) :=
  qs.map (nanquantile1 xs)

/-- view_table.py line 19: `error[~mask] = math.nan` — the array after the
masked assignment, entry `k` holding the original value where `mask[k]` is
true and NaN (`none`) where it is false. -/
def nanFill (error : List ℚ) (mask : List Bool) : List (Option ℚ) :=
  List.zipWith (fun e m => if m then some e else none) error mask

/-! ### view_table.py lines 17-21: masked_quantile (value level) -/

/-- view_table.py lines 17-21: `masked_quantile(error, mask, quantiles)`
copies `error`, NaN-fills the entries where `mask` is false, and takes
`np.nanquantile` of the result.  This is the value-level model; the copy
(line 18) is modelled explicitly in `masked_quantile_run` below. -/
def masked_quantile (error : List ℚ) (mask : List Bool) (quantiles : List ℚ) :
    List (Option ℚ) :=
  nanquantile (nanFill error mask) quantiles

/-! ### view_table.py lines 24-34: reprojection_statistics -/

/-- The Table produced by `reprojection_statistics` (view_table.py lines
33-34).  The five quantile fields are `Option ℚ` because `np.nanquantile`
returns NaN on a slice with no valid data.  The `rms` field of the source,
`np.sqrt(mse)`, is the derived real `Stats.rms` below. -/
structure Stats where
  detected : ℕ
  outliers : ℕ
  mse : ℚ
  min : Option ℚ
  lower_q : Option ℚ
  median : Option ℚ
  upper_q : Option ℚ
  max : Option ℚ
deriving Repr, DecidableEq

/-- view_table.py lines 24-34: `reprojection_statistics(error, valid, inlier)`
for one flattened slice.  Note line 26 squares and sums the WHOLE error
array — the sum is not restricted to the valid entries — and divides by
`np.maximum(n, 1)` where `n = valid.sum()`. -/
def reprojection_statistics (error : List ℚ) (valid inlier : List Bool) : Stats :=
  let n := npSumBool valid
  let mse := npSum (npSquare error) / ((max n 1 : ℕ) : ℚ)
  let outliers := npSumBool (npAndNot valid inlier)
  let qs := masked_quantile error valid [0, 1/4, 1/2, 3/4, 1]
  { detected := n
    outliers := outliers
    mse := mse
    min := qs.getD 0 none
    lower_q := qs.getD 1 none
    median := qs.getD 2 none
    upper_q := qs.getD 3 none
    max := qs.getD 4 none }

/-- view_table.py line 33: `rms=np.sqrt(mse)`, the only non-rational field. -/
noncomputable def Stats.rms (s : Stats) : ℝ := Real.sqrt (s.mse : ℝ)

/-- The `mse` the spec describes: the sum of squared error restricted to the
entries where `valid` is true, divided by `max(count of valid, 1)`.  This
definition follows the spec's words, for comparison with the source's
`reprojection_statistics`. -/
def mse_spec (error : List ℚ) (valid : List Bool) : ℚ :=
  npSum (npSquare (((error.zip valid).filter (fun p => p.2)).map (fun p => p.1)))
    / ((max (npSumBool valid) 1 : ℕ) : ℚ)

/-! ### Heap model for the frame-effect claim

The numpy arrays touched by `masked_quantile` are modelled as buffers in an
explicit heap, so that the in-place assignment of line 19 and the copy of
line 18 are visible as heap operations. -/

/-- A float buffer whose cells may hold NaN (`none`). -/
abbrev Buf := List (Option ℚ)

/-- A heap of float buffers, addressed by position. -/
abbrev Heap := List Buf

/-- Reading the buffer at reference `r` (a dangling reference reads `[]`). -/
def Heap.read (h : Heap) (r : ℕ) : Buf := h.getD r []

/-- Allocating a fresh buffer: the new heap and the fresh reference. -/
def Heap.alloc (h : Heap) (b : Buf) : Heap × ℕ := (h ++ [b], h.length)

/-- Overwriting the buffer at reference `r`. -/
def Heap.write (h : Heap) (r : ℕ) (b : Buf) : Heap := h.set r b

/-- view_table.py line 19 acting on a buffer that may already hold NaN:
keep the entry where the mask is true, store NaN where it is false. -/
def nanFillBuf (b : Buf) (mask : List Bool) : Buf :=
  List.zipWith (fun e m => if m then e else none) b mask

/-- view_table.py lines 17-21 with the error array as a heap reference:
line 18 `error = error.copy()` allocates a copy and rebinds the local name,
line 19 writes the NaN-fill into the copy, line 21 reads the copy into
`np.nanquantile`.  Returns the post-call heap and the quantile results. -/
def masked_quantile_run (h : Heap) (errRef : ℕ) (mask : List Bool)
    (quantiles : List ℚ) : Heap × List (Option ℚ) :=
  let e0 := h.read errRef
  let h1 := (h.alloc e0).1
  let cRef := (h.alloc e0).2
  let h2 := h1.write cRef (nanFillBuf (h1.read cRef) mask)
  (h2, nanquantile (h2.read cRef) quantiles)

/-- A Table as a pair of references to its field buffers; the validity field
lives in a heap of boolean buffers (`List (List Bool)`). -/
structure TableH where
  points : ℕ
  valid_points : ℕ
deriving Repr, DecidableEq

/-- The slice of the calibration object that `reprojection_tables` reads:
its point table and the reference to the inlier mask buffer. -/
structure CalibH where
  point_table : TableH
  inliers : ℕ
deriving Repr, DecidableEq

/-- `Table._extend` of the external structs library, as documented: returns a
fresh table value with the given field replaced, performing no write to any
existing buffer (the boolean heap is returned untouched). -/
def extendTable (bh : List (List Bool)) (t : TableH) (validRef : ℕ) :
    List (List Bool) × TableH :=
  (bh, { points := t.points, valid_points := validRef })

/-- view_table.py lines 38-40: the inlier-restriction step of
`reprojection_tables` — when `inlier_only` is set the point table is
rebound to `point_table._extend(valid_points=calib.inliers)`, a fresh table
value; otherwise it is used as given. -/
def reprojection_tables_setup (bh : List (List Bool)) (calib : CalibH)
    (inlier_only : Bool) : List (List Bool) × TableH :=
  let point_table := calib.point_table
  if inlier_only then extendTable bh point_table calib.inliers
  else (bh, point_table)

/-! ### motion/static.py

The repository's `multical.tables` module and `Parameters` base class are not
included under src/; the helpers below are modelled from the spec.  The
`Static` methods themselves are translated from src/multical/motion/static.py,
whose `params`, `with_params` and `sparsity` bodies are the single statement
`pass` (returning None) and whose `project`/`reproject` raise on every call. -/

/-- A point in world space. -/
abbrev Vec3 := ℚ × ℚ × ℚ

/-- An image point. -/
abbrev Vec2 := ℚ × ℚ

/-- Modelled from the spec: a rigid pose (a transform on points) with its
companion validity flag (spec section 3, "Pose"). -/
structure Pose where
  apply : Vec3 → Vec3
  valid : Bool

/-- Modelled from the spec: a per-camera intrinsic model exposing
`project(world_points) -> (image_points, valid)` (spec section 6). -/
structure Camera where
  project : List Vec3 → List Vec2 × List Bool

/-- A PointTable slice: image points with their validity mask. -/
structure PointTable where
  points : List Vec2
  valid : List Bool
deriving Repr, DecidableEq

/-- A Python exception raised by the code under analysis. -/
inductive PyErr where
  | typeError
  | attributeError
deriving Repr, DecidableEq

namespace tables

/-- Modelled from the spec: `tables.expand_views(camera_poses, object_poses)`
composes camera extrinsics with object/board poses to one view transform per
(camera, frame) pair; validity propagates by logical AND (spec section 4.2).
`multical/tables.py` is not included under src/. -/
def expand_views (camera_poses : List Pose) (object_poses : List Pose) :
    List (List Pose) :=
  camera_poses.map (fun c => object_poses.map (fun o =>
    { apply := fun v => c.apply (o.apply v), valid := c.valid && o.valid }))

/-- Modelled from the spec: `tables.transform_points(world_points, views)`
applies each view transform to every world point, returning the transformed
points and per-point validity, false where the transform is invalid (spec
section 4.2).  `multical/tables.py` is not included under src/. -/
def transform_points (world_points : List Vec3) (views : List (List Pose)) :
    List (List (List Vec3 × Bool)) :=
  views.map (fun row => row.map (fun v => (world_points.map v.apply, v.valid)))

end tables

/-- static.py lines 7-9: `Static.__init__` stores only `poses`; no `cameras`
attribute is ever assigned. -/
structure Static where
  poses : List Pose

/-- static.py lines 16-23: `reproject` computes the view table (line 17) and
the transformed points (line 18), then line 21 evaluates `self.cameras` —
an attribute `__init__` never assigns (the cameras are the method PARAMETER
`cameras`) — so every call raises AttributeError before producing a table.
The `detected` argument is never read by the body. -/
def Static.reproject (s : Static) (cameras : List Camera)
    (camera_poses : List Pose) (world_points : List Vec3)
    (detected : PointTable) : Except PyErr PointTable :=
  let view_table := tables.expand_views camera_poses s.poses
  let transformed := tables.transform_points world_points view_table
  match view_table, transformed, cameras, detected with
  | _, _, _, _ => Except.error PyErr.attributeError

/-- static.py lines 12-13: `project` invokes `self.reproject(cameras,
camera_poses, world_points)` with three arguments, but `reproject` requires a
fourth (`detected`), so the Python runtime raises TypeError on every call
before the body of `reproject` runs. -/
def Static.project (s : Static) (cameras : List Camera)
    (camera_poses : List Pose) (world_points : List Vec3) :
    Except PyErr PointTable :=
  match s, cameras, camera_poses, world_points with
  | _, _, _, _ => Except.error PyErr.typeError

/-- static.py lines 26-27: the body of `params` is the single statement
`pass`; the method returns None, never a parameter vector. -/
def Static.params (s : Static) : Option (List ℚ) :=
  match s with
  | _ => none

/-- static.py lines 29-30: the body of `with_params` is the single statement
`pass`; the method returns None, never a new `Static` instance. -/
def Static.with_params (s : Static) (params : List ℚ) : Option Static :=
  match s, params with
  | _, _ => none

/-- static.py lines 33-34: the body of `sparsity` is the single statement
`pass`; the method returns None, never a sparsity structure.  An index table
entry is a (camera, frame, board, point) residual index. -/
def Static.sparsity (s : Static) (index_table : List (ℕ × ℕ × ℕ × ℕ)) :
    Option (List (List ℕ)) :=
  match s, index_table with
  | _, _ => none

/-! ### view_table.py lines 59-62 and 102-111: colors -/

/-- A color of the external colour library, by its (hue, saturation,
luminance) triple as `get_hsl`/`Color(hsl=...)` expose it. -/
structure Color where
  hue : ℚ
  saturation : ℚ
  luminance : ℚ
deriving Repr, DecidableEq

/-- view_table.py lines 85-88: the green inlier color, rgb (0,1,0), whose
hsl triple is (1/3, 1, 1/2). -/
def inliersColor : Color := { hue := 1/3, saturation := 1, luminance := 1/2 }

/-- view_table.py lines 85-88: the red outlier color, rgb (1,0,0), whose
hsl triple is (0, 1, 1/2). -/
def outliersColor : Color := { hue := 0, saturation := 1, luminance := 1/2 }

/-- view_table.py lines 59-62: `interpolate_hsl(t, color1, color2)` blends
the two hsl triples componentwise as `hsl2 * t + hsl1 * (1 - t)`. -/
def interpolate_hsl (t : ℚ) (color1 color2 : Color) : Color :=
  { hue := color2.hue * t + color1.hue * (1 - t)
    saturation := color2.saturation * t + color1.saturation * (1 - t)
    luminance := color2.luminance * t + color1.luminance * (1 - t) }

/-- Python float division: raises ZeroDivisionError (here `none`) when the
denominator is zero. -/
def pydiv (a b : ℚ) : Option ℚ := if b = 0 then none else some (a / b)

/-- view_table.py lines 102-111: `ViewModelCalibrated.cell_color` — the
detection rate is `min(detected / num_points, 1)`, the outlier rate is
`outliers / max(detected, 1)`, the color interpolates from the inlier green
to the outlier red at `min(outlier_rate * 5, 1)`, and the luminance is set
to `max(1 - detection_rate, 0.7)`.  Both divisions are modelled as checked
Python divisions. -/
def cell_color (num_points : ℚ) (view_stats : Stats) : Option Color := do
  let dr0 ← pydiv (view_stats.detected : ℚ) num_points
  let detection_rate := min dr0 1
  let outlier_rate ← pydiv (view_stats.outliers : ℚ)
    ((max view_stats.detected 1 : ℕ) : ℚ)
  let outlier_t := min (outlier_rate * 5) 1
  let color := interpolate_hsl outlier_t inliersColor outliersColor
  pure { color with luminance := max (1 - detection_rate) (7/10) }

/-! ### Helper lemmas -/

theorem npSumBool_eq_count (v : List Bool) :
    npSumBool v = (v.filter (fun b => b)).length := by
  induction v with
  | nil => rfl
  | cons b bs ih =>
    cases b <;> simp [npSumBool, List.filter] at ih ⊢ <;> omega

theorem npAndNot_count (v i : List Bool) :
    npSumBool (npAndNot v i)
      = ((v.zip i).filter (fun p => p.1 && !p.2)).length := by
  induction v generalizing i with
  | nil => rfl
  | cons b bs ih =>
    cases i with
    | nil => rfl
    | cons c cs =>
      have h := ih cs
      cases b <;> cases c <;>
        simp [npAndNot, npSumBool, List.zip, List.filter] at h ⊢ <;> omega

theorem all_false_of_npSumBool_zero {v : List Bool} (h : npSumBool v = 0) :
    ∀ b ∈ v, b = false := by
  induction v with
  | nil => simp
  | cons b bs ih =>
    cases b with
    | false =>
      simp only [npSumBool, List.map_cons, List.sum_cons, if_neg Bool.false_ne_true] at h
      simpa using ih (by simpa [npSumBool] using h)
    | true => simp [npSumBool] at h

theorem nanFill_filterMap_nil {v : List Bool} (e : List ℚ)
    (h : ∀ b ∈ v, b = false) : (nanFill e v).filterMap id = [] := by
  induction v generalizing e with
  | nil => simp [nanFill]
  | cons b bs ih =>
    cases e with
    | nil => simp [nanFill]
    | cons x xs =>
      have hb : b = false := h b (by simp)
      subst hb
      simpa [nanFill, List.zipWith] using ih xs (fun c hc => h c (by simp [hc]))

theorem masked_quantile_all_false (v : List Bool) (e : List ℚ) (qs : List ℚ)
    (h : ∀ b ∈ v, b = false) :
    masked_quantile e v qs = qs.map (fun _ => none) := by
  unfold masked_quantile nanquantile
  refine List.map_congr_left (fun q _ => ?_)
  unfold nanquantile1
  rw [nanFill_filterMap_nil e h]
  simp [sortAsc]

theorem npSum_npSquare_filter (e : List ℚ) (v : List Bool)
    (hl : e.length = v.length)
    (hz : ∀ p ∈ e.zip v, p.2 = false → p.1 = 0) :
    npSum (npSquare e)
      = npSum (npSquare (((e.zip v).filter (fun p => p.2)).map (fun p => p.1))) := by
  induction e generalizing v with
  | nil => simp [npSum, npSquare]
  | cons x xs ih =>
    cases v with
    | nil => simp at hl
    | cons b bs =>
      have ih2 := ih bs (by simpa using hl)
        (fun p hp hpf => hz p (by simp [List.zip_cons_cons, hp]) hpf)
      cases b with
      | false =>
        have hx : x = 0 := hz (x, false) (by simp [List.zip_cons_cons]) rfl
        simpa [npSum, npSquare, List.zip_cons_cons, List.filter, hx] using ih2
      | true =>
        simp only [npSum, npSquare, List.zip_cons_cons, List.filter,
          List.map_cons, List.sum_cons] at ih2 ⊢
        simpa using ih2

theorem nanFill_eq_of_agree (e1 e2 : List ℚ) {mask : List Bool}
    (h1 : e1.length = mask.length) (h2 : e2.length = mask.length)
    (hagree : ∀ k, k < mask.length → mask.getD k false = true →
      e1.getD k 0 = e2.getD k 0) :
    nanFill e1 mask = nanFill e2 mask := by
  induction mask generalizing e1 e2 with
  | nil =>
    cases e1 with
    | nil =>
      cases e2 with
      | nil => rfl
      | cons y ys => simp at h2
    | cons x xs => simp at h1
  | cons m ms ih =>
    cases e1 with
    | nil => simp at h1
    | cons x xs =>
      cases e2 with
      | nil => simp at h2
      | cons y ys =>
        have ih2 := ih xs ys (by simpa using h1) (by simpa using h2)
          (fun k hk hm => hagree (k + 1) (by simpa using hk) (by simpa using hm))
        cases m with
        | false => simpa [nanFill] using ih2
        | true =>
          have hxy : x = y := hagree 0 (by simp) (by simp)
          simp only [nanFill] at ih2 ⊢
          simp [hxy, ih2]

/-! ### Claim theorems -/

/-- C1: the claim asserts `with_params(x)` returns a new `Static` instance
with `params() == x`; in the code both bodies are `pass`, so `with_params`
returns None (no instance is ever produced) and `params` returns None (no
vector), and the round-trip law cannot hold for any input. -/
theorem static_with_params_returns_no_instance (s : Static) (x : List ℚ) :
    Static.with_params s x = none ∧ Static.params s = none :=
  ⟨rfl, rfl⟩

/-- C4: `reprojection_statistics` reports `detected` equal to the number of
points whose validity flag is true, and `outliers` equal to the number of
points that are valid but not inliers. -/
theorem reprojection_statistics_counts (error : List ℚ) (valid inlier : List Bool) :
    (reprojection_statistics error valid inlier).detected
        = (valid.filter (fun b => b)).length
    ∧ (reprojection_statistics error valid inlier).outliers
        = ((valid.zip inlier).filter (fun p => p.1 && !p.2)).length :=
  ⟨npSumBool_eq_count valid, npAndNot_count valid inlier⟩

/-- C6: the claim asserts `Static.project` succeeds without a detections
argument; in the code it calls `self.reproject` with three arguments while
`reproject` requires four, so every call raises TypeError instead of
returning predicted points. -/
theorem static_project_raises_type_error (s : Static) (cameras : List Camera)
    (camera_poses : List Pose) (world_points : List Vec3) :
    Static.project s cameras camera_poses world_points
      = Except.error PyErr.typeError :=
  rfl

/-- C7: the claim asserts `Static.reproject` aligns its result against the
`detected` table's validity mask; in the code the body never reads
`detected` and evaluates `self.cameras`, an attribute that is never
assigned, so every call raises AttributeError and no aligned table is ever
produced. -/
theorem static_reproject_raises_attribute_error (s : Static)
    (cameras : List Camera) (camera_poses : List Pose)
    (world_points : List Vec3) (detected : PointTable) :
    Static.reproject s cameras camera_poses world_points detected
      = Except.error PyErr.attributeError :=
  rfl

/-- C8: the claim asserts `Static.sparsity` returns a block-diagonal
sparsity structure; in the code the body is `pass`, so every call returns
None and no sparsity structure of any shape is produced. -/
theorem static_sparsity_returns_none (s : Static)
    (index_table : List (ℕ × ℕ × ℕ × ℕ)) :
    Static.sparsity s index_table = none :=
  rfl

/-- C2 is false as stated: with error [5, 0] and validity [false, true] the
invalid first entry contributes 25 to the mse computed by the code, while a
sum restricted to valid entries (the spec's description, `mse_spec`) is 0. -/
theorem reprojection_statistics_mse_counterexample :
    (reprojection_statistics [5, 0] [false, true] [true, true]).mse
      ≠ mse_spec [5, 0] [false, true] := by
  norm_num [reprojection_statistics, mse_spec, npSum, npSquare, npSumBool,
    List.zip_cons_cons]

/-- C2 (amended): `reprojection_statistics` computes mse as the sum of
squared error over ALL entries — valid or not — divided by
`max(count valid, 1)`; when the error array is zero at every invalid entry
(as the callers arrange), this coincides with the spec's masked mse. -/
theorem reprojection_statistics_mse (error : List ℚ) (valid inlier : List Bool)
    (hl : error.length = valid.length)
    (hz : ∀ p ∈ error.zip valid, p.2 = false → p.1 = 0) :
    (reprojection_statistics error valid inlier).mse
        = npSum (npSquare error) / ((max (npSumBool valid) 1 : ℕ) : ℚ)
    ∧ (reprojection_statistics error valid inlier).mse
        = mse_spec error valid := by
  refine ⟨rfl, ?_⟩
  show npSum (npSquare error) / ((max (npSumBool valid) 1 : ℕ) : ℚ)
    = mse_spec error valid
  unfold mse_spec
  rw [npSum_npSquare_filter error valid hl hz]

/-- Witness for C2 at error [0, 3], validity [false, true]. -/
theorem reprojection_statistics_mse_witness :
    (reprojection_statistics [0, 3] [false, true] [true, true]).mse
        = npSum (npSquare [0, 3]) / ((max (npSumBool [false, true]) 1 : ℕ) : ℚ)
    ∧ (reprojection_statistics [0, 3] [false, true] [true, true]).mse
        = mse_spec [0, 3] [false, true] :=
  reprojection_statistics_mse [0, 3] [false, true] [true, true] rfl (by decide)

/-- C3 is false as stated: a slice with zero valid points (here both points
invalid, error zero-filled as the pipeline produces it) yields mse = 0
exactly — a plain number, not a no-data sentinel — although detected = 0. -/
theorem reprojection_statistics_empty_mse_counterexample :
    (reprojection_statistics [0, 0] [false, false] [false, false]).detected = 0
    ∧ (reprojection_statistics [0, 0] [false, false] [false, false]).mse = 0 := by
  constructor <;>
    norm_num [reprojection_statistics, npSum, npSquare, npSumBool]

/-- C3 (amended): on a slice with zero valid points `reprojection_statistics`
is total (no exception) and reports detected = 0 and the NaN sentinel in all
five quantile fields, but mse is NOT a sentinel: it equals the unmasked sum
of squared error divided by one (zero whenever the errors are zero-filled). -/
theorem reprojection_statistics_empty_slice (error : List ℚ)
    (valid inlier : List Bool) (h : npSumBool valid = 0) :
    (reprojection_statistics error valid inlier).detected = 0
    ∧ (reprojection_statistics error valid inlier).mse = npSum (npSquare error)
    ∧ (reprojection_statistics error valid inlier).min = none
    ∧ (reprojection_statistics error valid inlier).lower_q = none
    ∧ (reprojection_statistics error valid inlier).median = none
    ∧ (reprojection_statistics error valid inlier).upper_q = none
    ∧ (reprojection_statistics error valid inlier).max = none := by
  have hall : ∀ b ∈ valid, b = false := all_false_of_npSumBool_zero h
  have hq := masked_quantile_all_false valid error
    [0, 1/4, 1/2, 3/4, 1] hall
  refine ⟨h, ?_, ?_, ?_, ?_, ?_, ?_⟩
  · show npSum (npSquare error) / ((max (npSumBool valid) 1 : ℕ) : ℚ)
      = npSum (npSquare error)
    rw [h]
    norm_num
  all_goals
    first
    | (show (masked_quantile error valid [0, 1/4, 1/2, 3/4, 1]).getD 0 none = none
       rw [hq]; rfl)
    | (show (masked_quantile error valid [0, 1/4, 1/2, 3/4, 1]).getD 1 none = none
       rw [hq]; rfl)
    | (show (masked_quantile error valid [0, 1/4, 1/2, 3/4, 1]).getD 2 none = none
       rw [hq]; rfl)
    | (show (masked_quantile error valid [0, 1/4, 1/2, 3/4, 1]).getD 3 none = none
       rw [hq]; rfl)
    | (show (masked_quantile error valid [0, 1/4, 1/2, 3/4, 1]).getD 4 none = none
       rw [hq]; rfl)

/-- Witness for C3 at error [1, 2] with no valid point. -/
theorem reprojection_statistics_empty_slice_witness :
    (reprojection_statistics [1, 2] [false, false] [true, false]).detected = 0
    ∧ (reprojection_statistics [1, 2] [false, false] [true, false]).mse
        = npSum (npSquare [1, 2])
    ∧ (reprojection_statistics [1, 2] [false, false] [true, false]).min = none
    ∧ (reprojection_statistics [1, 2] [false, false] [true, false]).lower_q = none
    ∧ (reprojection_statistics [1, 2] [false, false] [true, false]).median = none
    ∧ (reprojection_statistics [1, 2] [false, false] [true, false]).upper_q = none
    ∧ (reprojection_statistics [1, 2] [false, false] [true, false]).max = none :=
  reprojection_statistics_empty_slice [1, 2] [false, false] [true, false] rfl

/-- C5: `masked_quantile` depends only on the entries whose mask is true —
two error arrays agreeing there give identical results — and when every
entry is masked out every returned quantile is the NaN sentinel, with no
exception raised (the function is total). -/
theorem masked_quantile_ignores_masked (e1 e2 : List ℚ) (mask : List Bool)
    (qs : List ℚ) (h1 : e1.length = mask.length) (h2 : e2.length = mask.length)
    (hagree : ∀ k, k < mask.length → mask.getD k false = true →
      e1.getD k 0 = e2.getD k 0) :
    masked_quantile e1 mask qs = masked_quantile e2 mask qs
    ∧ ((∀ b ∈ mask, b = false) →
        ∀ r ∈ masked_quantile e1 mask qs, r = none) := by
  constructor
  · unfold masked_quantile
    rw [nanFill_eq_of_agree e1 e2 h1 h2 hagree]
  · intro hfalse r hr
    rw [masked_quantile_all_false mask e1 qs hfalse] at hr
    simp at hr
    exact hr.2

/-- Witness for C5: changing the masked-out entry from 5 to 7 leaves the
median unchanged, and an all-false mask yields only sentinels. -/
theorem masked_quantile_ignores_masked_witness :
    masked_quantile [1, 5] [true, false] [1/2]
      = masked_quantile [1, 7] [true, false] [1/2]
    ∧ ((∀ b ∈ [true, false], b = false) →
        ∀ r ∈ masked_quantile [1, 5] [true, false] [1/2], r = none) :=
  masked_quantile_ignores_masked [1, 5] [1, 7] [true, false] [1/2]
    rfl rfl (by decide)

/-- C9: the call tree of `reprojection_tables` never writes an existing
array: `masked_quantile` NaN-fills a freshly allocated copy of its error
buffer, leaving the caller's buffer unchanged, and the inlier restriction
`point_table._extend(...)` builds a fresh table without touching any
buffer of the given point table. -/
theorem masked_quantile_run_pure (h : Heap) (errRef : ℕ) (mask : List Bool)
    (qs : List ℚ) (bh : List (List Bool)) (calib : CalibH)
    (inlier_only : Bool) (hr : errRef < h.length) :
    ((masked_quantile_run h errRef mask qs).1).read errRef = h.read errRef
    ∧ (reprojection_tables_setup bh calib inlier_only).1 = bh := by
  constructor
  · have hne : h.length ≠ errRef := Nat.ne_of_gt hr
    show Heap.read (Heap.write ((h.alloc (h.read errRef)).1)
        ((h.alloc (h.read errRef)).2)
        (nanFillBuf (((h.alloc (h.read errRef)).1).read
          ((h.alloc (h.read errRef)).2)) mask)) errRef
      = h.read errRef
    unfold Heap.read Heap.write Heap.alloc
    rw [List.getD_eq_getElem?_getD, List.getElem?_set_ne hne,
      ← List.getD_eq_getElem?_getD, List.getD_append _ _ _ _ hr]
  · cases inlier_only <;> rfl

/-- Witness for C9 on a one-buffer heap. -/
theorem masked_quantile_run_pure_witness :
    0 < ([[some 1, some 2]] : Heap).length
    ∧ (Heap.read (masked_quantile_run [[some 1, some 2]] 0 [true, false] [1/2]).1 0
          = Heap.read [[some 1, some 2]] 0
        ∧ (reprojection_tables_setup [[true]]
            { point_table := { points := 0, valid_points := 0 }, inliers := 0 }
            true).1 = [[true]]) :=
  ⟨by decide,
    masked_quantile_run_pure [[some 1, some 2]] 0 [true, false] [1/2]
      [[true]] { point_table := { points := 0, valid_points := 0 }, inliers := 0 }
      true (by decide)⟩

/-- C10: `cell_color` is total for a view with zero detections: the outlier
rate divides by `max(detected, 1) = 1`, so no division by zero occurs and a
color is produced (given the board has a nonzero point count, the only other
denominator). -/
theorem cell_color_total_detected_zero (num_points : ℚ) (view_stats : Stats)
    (hnp : num_points ≠ 0) (h0 : view_stats.detected = 0) :
    ∃ c, cell_color num_points view_stats = some c := by
  unfold cell_color pydiv
  rw [h0]
  simp [hnp]

/-- Witness for C10: a view with zero detected points on a 4-point board
still gets a color. -/
theorem cell_color_total_detected_zero_witness :
    (4 : ℚ) ≠ 0
    ∧ ∃ c, cell_color 4
        { detected := 0, outliers := 0, mse := 0, min := none,
          lower_q := none, median := none, upper_q := none, max := none }
        = some c :=
  ⟨by norm_num,
    cell_color_total_detected_zero 4
      { detected := 0, outliers := 0, mse := 0, min := none,
        lower_q := none, median := none, upper_q := none, max := none }
      (by norm_num) rfl⟩

end Multical
